import Mathlib

/-!
Shallow embedding of the client-side site-creation flow of
`saas_package_management` (the `Customer Site` and `Customer Request`
form scripts): field validation, the progress dialog, the real-time
progress-event handler, the start-RPC acknowledgment callback, the
progress presenter, and the customer-name → domain suggestion.

JavaScript values that may be `undefined` are modelled as `Option`;
JavaScript string truthiness (`undefined` and `""` are falsy) is the
`truthy` predicate. Each UI / RPC side effect is an `Action`
constructor, and a handler is modelled as the list of actions it
performs, together with an optional runtime error (a thrown
`TypeError` from an unguarded field access).
-/

namespace SaasPM

/-- Side effects performed by the client scripts: messages, dialogs,
real-time listener registration, RPC calls, presenter updates, record
reloads and alerts. -/
inductive Action where
  | msgprint (text : String)
  | confirmPrompt (text : String)
  | showDialog
  | hideDialog
  | registerListener
  | rpcCall (method : String) (arg : String)
  | presenterUpdate (percentage : Int) (message : String)
  | reloadDoc
  | showAlert (message : String) (indicator : String)
  deriving DecidableEq, Repr

/-- Result of running an event handler: the actions it performed, and
`some e` when it aborted with a runtime error `e` (a JavaScript
`TypeError`). -/
structure HandlerResult where
  actions : List Action
  err : Option String
  deriving DecidableEq, Repr

/-- JavaScript string truthiness: `undefined` (`none`) and the empty
string are falsy, every other string is truthy. -/
def truthy : Option String → Bool
  | none => false
  | some s => !s.isEmpty

/-- Decides whether `pat` occurs as a contiguous substring of the
character list, as JavaScript `String.prototype.includes` does. -/
def listContains (pat : List Char) : List Char → Bool
  | [] => pat.isEmpty
  | c :: t => pat.isPrefixOf (c :: t) || listContains pat t

/-- JavaScript `s.includes(pat)`: substring containment, case
sensitive. -/
def jsIncludes (s pat : String) : Bool :=
  listContains pat.toList s.toList

/-- The fields of a `Customer Site` document read by the client script:
`custom_domain`, `instance` (spelt `instance_` as `instance` is a Lean
keyword), `package`, and the document `name`. A field that is absent
on the form is `none`. -/
structure CustomerSiteDoc where
  custom_domain : Option String
  instance_ : Option String
  package : Option String
  name : String
  deriving DecidableEq, Repr

/-- The validation phase of `create_site_with_progress(frm)`: each
missing required field raises one `msgprint` and returns; when all
three fields are present the user is shown the confirmation prompt
(whose affirmative continuation is `start_site_creation`). The value
is the list of synchronous actions performed. -/
def create_site_with_progress (doc : CustomerSiteDoc) : List Action :=
  if !truthy doc.custom_domain then
    [Action.msgprint "Custom Domain is required to create site"]
  else if !truthy doc.instance_ then
    [Action.msgprint "Instance is required to create site"]
  else if !truthy doc.package then
    [Action.msgprint "Package is required to create site"]
  else
    [Action.confirmPrompt "Are you sure you want to create the site? This process may take several minutes."]

/-- The server method invoked by `start_site_creation`. -/
def create_site_method : String :=
  "saas_package_management.saas_package_management.doctype.customer_site.customer_site.create_site"

/-- The synchronous action trace of `start_site_creation(frm)`: it
shows the progress dialog, registers the `site_creation_progress`
real-time listener, and only then issues the asynchronous
`create_site` RPC with the document name. -/
def start_site_creation (doc : CustomerSiteDoc) : List Action :=
  [Action.showDialog, Action.registerListener,
   Action.rpcCall create_site_method doc.name]

/-- A `site_creation_progress` real-time event: `progress` and
`message` are both optional fields of the delivered payload. -/
structure ProgressEvent where
  progress : Option Int
  message : Option String
  deriving DecidableEq, Repr

/-- The `site_creation_progress` real-time handler registered in
`start_site_creation`. It first calls
`update_progress(data.progress || 0, data.message || '')` (guarded
defaults), then classifies: `data.progress === 100` reloads the
record and raises the green success alert; otherwise
`data.progress === 0 && data.message.includes('failed')` raises the
red failure alert — the `data.message.includes` access is unguarded,
so it throws a `TypeError` when `message` is absent. -/
def on_site_creation_progress (data : ProgressEvent) : HandlerResult :=
  let pu := Action.presenterUpdate (data.progress.getD 0) (data.message.getD "")
  if data.progress = some 100 then
    { actions := [pu, Action.reloadDoc,
                  Action.showAlert "Site created successfully!" "green"],
      err := none }
  else if data.progress = some 0 then
    match data.message with
    | none =>
      { actions := [pu],
        err := some "TypeError: data.message is undefined" }
    | some m =>
      if jsIncludes m "failed" then
        { actions := [pu, Action.showAlert ("Site creation failed: " ++ m) "red"],
          err := none }
      else
        { actions := [pu], err := none }
  else
    { actions := [pu], err := none }

/-- The acknowledgment object `r.message` of the `create_site` RPC:
`success` and `message` are optional fields. -/
structure AckMessage where
  success : Option Bool
  message : Option String
  deriving DecidableEq, Repr

/-- JavaScript `v || d` on an optional string `v`: the default `d` is
used when `v` is `undefined` or the (falsy) empty string. -/
def jsOrDefault (v : Option String) (d : String) : String :=
  if truthy v then v.getD d else d

/-- The `callback` of the `create_site` `frappe.call` in
`start_site_creation`: `r.message && r.message.success` selects the
started path (presenter shows 5% with the started message); otherwise
the failure path reads `r.message.message || 'Unknown error'` (the
default also applies to an empty-string message, which is falsy),
updates the presenter with 0% and raises a red alert. When
`r.message` itself is absent the failure path dereferences
`undefined` and throws. -/
def create_site_callback (msg : Option AckMessage) : HandlerResult :=
  match msg with
  | some a =>
    if a.success.getD false then
      { actions := [Action.presenterUpdate 5 "Site creation process started..."],
        err := none }
    else
      let failText := "Failed to start site creation: " ++
        jsOrDefault a.message "Unknown error"
      { actions := [Action.presenterUpdate 0 failText,
                    Action.showAlert failText "red"],
        err := none }
  | none =>
    { actions := [], err := some "TypeError: r.message is undefined" }

/-- The client-local state of one progress dialog: the gauge width the
script last wrote, the status text, and the append-only log (each
entry a fully formatted line). -/
structure Session where
  gauge : Int
  statusText : String
  log : List String
  deriving DecidableEq, Repr

/-- The dialog state as created by `start_site_creation`: width 0%,
text `Initializing...`, empty log. -/
def init_session : Session :=
  { gauge := 0, statusText := "Initializing...", log := [] }

/-- One log line of `update_progress`:
`[timestamp] message` followed by a newline. -/
def fmt_log_entry (e : Int × String × String) : String :=
  "[" ++ e.2.2 ++ "] " ++ e.2.1 ++ "\n"

/-- The body of `update_progress(percentage, message, dialog)`: sets
the gauge width to `percentage` (no clamping is performed by the
source), replaces the status text with `message`, and appends one
formatted log line stamped with `now`, the local time at the moment of
the call. -/
def update_progress (percentage : Int) (message : String) (now : String)
    (s : Session) : Session :=
  { gauge := percentage,
    statusText := message,
    log := s.log ++ [fmt_log_entry (percentage, message, now)] }

/-- Runs a sequence of `update_progress` calls, one per received event;
each element carries the percentage, the message and the local
timestamp captured when the call is made. -/
def run_updates (s : Session) : List (Int × String × String) → Session
  | [] => s
  | e :: rest => run_updates (update_progress e.1 e.2.1 e.2.2 s) rest

/-- Whitespace as matched by the JavaScript regular-expression class
`\s`. -/
def isJsSpace (c : Char) : Bool :=
  c = ' ' || c = '\t' || c = '\n' || c = '\r' || c = '\x0b' || c = '\x0c'
  || c = '\u00A0' || c = '\u1680' || ('\u2000' ≤ c && c ≤ '\u200A')
  || c = '\u2028' || c = '\u2029' || c = '\u202F' || c = '\u205F'
  || c = '\u3000' || c = '\uFEFF'

/-- The characters kept by the regular-expression replacement
`[^a-zA-Z0-9-]` → removed: ASCII letters, digits and the hyphen. -/
def isDomainChar (c : Char) : Bool :=
  ('a' ≤ c && c ≤ 'z') || ('A' ≤ c && c ≤ 'Z') || ('0' ≤ c && c ≤ '9') || c = '-'

/-- Character-by-character engine of `.replace(/\s+/g, '-')`:
`inRun` records whether the previous character belonged to a
whitespace run, so only the first whitespace character of each maximal
run emits the hyphen. -/
def replace_ws_runs_aux (inRun : Bool) : List Char → List Char
  | [] => []
  | c :: cs =>
    if isJsSpace c then
      (if inRun then [] else ['-']) ++ replace_ws_runs_aux true cs
    else
      c :: replace_ws_runs_aux false cs

/-- JavaScript `.replace(/\s+/g, '-')`: every maximal run of
whitespace characters becomes a single hyphen. -/
def replace_ws_runs (l : List Char) : List Char :=
  replace_ws_runs_aux false l

/-- The domain suggestion computed by the `customer_name` field
handler: lower-case (`toLowerCase`, modelled with the ASCII case map),
replace each whitespace run by `-`, drop every character outside
`[a-zA-Z0-9-]`, and truncate to the first 20 characters
(`substring(0, 20)`). -/
def suggested_domain (name : String) : String :=
  String.mk (((replace_ws_runs (name.toList.map Char.toLower)).filter isDomainChar).take 20)

/-- The `customer_name` field handler of the `Customer Request` form:
when `customer_name` is truthy and `custom_domain` is falsy, the
suggestion is computed and, when non-empty, written to
`custom_domain`; in every other case `custom_domain` is unchanged.
The value is the resulting `custom_domain`. -/
def customer_name (customer_name_value custom_domain : Option String) :
    Option String :=
  if truthy customer_name_value && !truthy custom_domain then
    let s := suggested_domain (customer_name_value.getD "")
    if !s.isEmpty then some s else custom_domain
  else custom_domain

/-- Shows that a non-empty string has `isEmpty` false. -/
theorem isEmpty_false_of_ne (s : String) (h : s ≠ "") : s.isEmpty = false := by
  cases hE : s.isEmpty with
  | false => rfl
  | true => exact absurd ((String.isEmpty_iff s).mp hE) h

/-- Unfolds the log of a run of `update_progress` calls: the initial
log followed by one formatted line per call, in order. -/
theorem run_updates_log (evs : List (Int × String × String)) (s : Session) :
    (run_updates s evs).log = s.log ++ evs.map fmt_log_entry := by
  induction evs generalizing s with
  | nil => simp [run_updates]
  | cons e rest ih =>
    simp [run_updates, ih, update_progress]

/-- C1: every `site_creation_progress` event with `progress = 100` is
classified as success by the handler — the presenter is updated, the
record is reloaded and the green success alert is raised, with no
runtime error — regardless of the message content (including messages
containing "failed"). -/
theorem c1_progress100_success (ev : ProgressEvent)
    (h : ev.progress = some 100) :
    on_site_creation_progress ev =
      { actions := [Action.presenterUpdate 100 (ev.message.getD ""),
                    Action.reloadDoc,
                    Action.showAlert "Site created successfully!" "green"],
        err := none } := by
  simp [on_site_creation_progress, h]

/-- Witness for C1: the event `progress = 100`, message
`"deployment failed"` — the message contains "failed", yet the handler
reloads the record and raises the green success alert. -/
theorem c1_witness :
    on_site_creation_progress ⟨some 100, some "deployment failed"⟩ =
      { actions := [Action.presenterUpdate 100 "deployment failed",
                    Action.reloadDoc,
                    Action.showAlert "Site created successfully!" "green"],
        err := none } :=
  c1_progress100_success ⟨some 100, some "deployment failed"⟩ rfl

/-- C2: for an event carrying a message, the handler raises the red
failure alert (containing the event message) iff `progress = 0` and
the message contains the substring "failed"; at `progress = 0` without
"failed" only the presenter update happens (no alert, no reload); and
at any progress other than 0 no red alert is ever raised, whatever the
message. -/
theorem c2_failure_classification (p : Option Int) (m : String) :
    (Action.showAlert ("Site creation failed: " ++ m) "red"
        ∈ (on_site_creation_progress ⟨p, some m⟩).actions
      ↔ p = some 0 ∧ jsIncludes m "failed" = true)
    ∧ (on_site_creation_progress ⟨p, some m⟩).err = none
    ∧ (p = some 0 → jsIncludes m "failed" = false →
        (on_site_creation_progress ⟨p, some m⟩).actions
          = [Action.presenterUpdate 0 m])
    ∧ (p ≠ some 0 → ∀ s,
        Action.showAlert s "red"
          ∉ (on_site_creation_progress ⟨p, some m⟩).actions) := by
  by_cases h100 : p = some 100
  · subst h100
    simp [on_site_creation_progress]
  · by_cases h0 : p = some 0
    · subst h0
      cases hf : jsIncludes m "failed" <;>
        simp [on_site_creation_progress, hf]
    · simp [on_site_creation_progress, h100, h0]

/-- Witness for C2: the event `progress = 0`, message `"retry failed"`
is classified failure: the red alert containing the message is
raised. -/
theorem c2_witness :
    Action.showAlert ("Site creation failed: " ++ "retry failed") "red"
      ∈ (on_site_creation_progress ⟨some 0, some "retry failed"⟩).actions :=
  (c2_failure_classification (some 0) "retry failed").1.mpr ⟨rfl, by decide⟩

/-- C3: when any of `custom_domain`, `instance`, `package` is falsy
(empty or missing), `create_site_with_progress` performs exactly one
`msgprint` naming the first missing field in the order domain,
instance, package, and performs no confirmation prompt and no RPC
call. -/
theorem c3_validation_aborts (doc : CustomerSiteDoc)
    (h : truthy doc.custom_domain = false ∨ truthy doc.instance_ = false
          ∨ truthy doc.package = false) :
    create_site_with_progress doc =
      [Action.msgprint
        (if truthy doc.custom_domain = false then
          "Custom Domain is required to create site"
         else if truthy doc.instance_ = false then
          "Instance is required to create site"
         else "Package is required to create site")]
    ∧ (∀ mth arg, Action.rpcCall mth arg ∉ create_site_with_progress doc)
    ∧ (∀ t, Action.confirmPrompt t ∉ create_site_with_progress doc) := by
  cases hd : truthy doc.custom_domain <;>
    cases hi : truthy doc.instance_ <;>
      cases hp : truthy doc.package <;>
        simp_all [create_site_with_progress]

/-- Witness for C3: a document whose `custom_domain` is the empty
string yields exactly the domain validation message. -/
theorem c3_witness :
    create_site_with_progress ⟨some "", some "inst-1", some "pro", "SITE-0001"⟩ =
      [Action.msgprint "Custom Domain is required to create site"] :=
  (c3_validation_aborts ⟨some "", some "inst-1", some "pro", "SITE-0001"⟩
    (Or.inl rfl)).1

/-- C4 fails on the code: at percentage 150 the gauge written by
`update_progress` is 150, not the clamped value
`min 100 (max 0 150) = 100` — no defensive clamping is performed. -/
theorem c4_counterexample :
    (update_progress 150 "Deploying" "10:15:00 AM" init_session).gauge
      ≠ min 100 (max 0 (150 : Int)) := by
  decide

/-- C4 amended: `update_progress` writes the received percentage to
the gauge unchanged — an out-of-range value is passed through as-is,
with no clamping to [0, 100]. -/
theorem c4_gauge_unclamped (p : Int) (m t : String) (s : Session) :
    (update_progress p m t s).gauge = p :=
  rfl

/-- C5 fails on the code: at progress 0 with the message field absent,
the failure check dereferences `data.message` without an existence
check and the handler raises a runtime `TypeError`. -/
theorem c5_counterexample :
    (on_site_creation_progress ⟨some 0, none⟩).err ≠ none := by
  decide

/-- C5 amended: for an event with the message field absent, the
handler completes without a runtime error iff its progress is not 0;
only the `progress = 0` branch reaches the unguarded
`data.message.includes` access. -/
theorem c5_missing_message (ev : ProgressEvent) (h : ev.message = none) :
    (on_site_creation_progress ev).err = none ↔ ev.progress ≠ some 0 := by
  obtain ⟨p, m⟩ := ev
  simp only at h
  subst h
  by_cases h100 : p = some 100
  · subst h100
    simp [on_site_creation_progress]
  · by_cases h0 : p = some 0
    · subst h0
      simp [on_site_creation_progress]
    · simp [on_site_creation_progress, h100, h0]

/-- Witness for C5 amended: an absent message with progress 55
completes without error. -/
theorem c5_witness :
    (⟨some 55, none⟩ : ProgressEvent).message = none
    ∧ ((on_site_creation_progress ⟨some 55, none⟩).err = none
        ↔ (⟨some 55, none⟩ : ProgressEvent).progress ≠ some 0) :=
  ⟨rfl, c5_missing_message ⟨some 55, none⟩ rfl⟩

/-- C6: when the `create_site` acknowledgment object is present and
its success flag is not true (false or absent), the callback updates
the presenter with 0% and the failure text naming the operation,
raises the red alert with the same text, reloads nothing and does not
close the dialog. -/
theorem c6_start_failure (a : AckMessage) (h : a.success ≠ some true) :
    (create_site_callback (some a)).actions =
      [Action.presenterUpdate 0
         ("Failed to start site creation: " ++ jsOrDefault a.message "Unknown error"),
       Action.showAlert
         ("Failed to start site creation: " ++ jsOrDefault a.message "Unknown error")
         "red"]
    ∧ (create_site_callback (some a)).err = none
    ∧ Action.reloadDoc ∉ (create_site_callback (some a)).actions
    ∧ Action.hideDialog ∉ (create_site_callback (some a)).actions := by
  have hs : a.success.getD false = false := by
    cases hs : a.success with
    | none => rfl
    | some b =>
      cases b with
      | false => rfl
      | true => exact absurd hs h
  simp [create_site_callback, hs]

/-- Witness for C6: acknowledgment `{success: false, message: "quota
exceeded"}` yields the 0% presenter update and the red alert, no
reload and no dialog close. -/
theorem c6_witness :
    (create_site_callback (some ⟨some false, some "quota exceeded"⟩)).actions =
      [Action.presenterUpdate 0
         ("Failed to start site creation: " ++
          jsOrDefault (some "quota exceeded") "Unknown error"),
       Action.showAlert
         ("Failed to start site creation: " ++
          jsOrDefault (some "quota exceeded") "Unknown error")
         "red"]
    ∧ (create_site_callback (some ⟨some false, some "quota exceeded"⟩)).err = none
    ∧ Action.reloadDoc
        ∉ (create_site_callback (some ⟨some false, some "quota exceeded"⟩)).actions
    ∧ Action.hideDialog
        ∉ (create_site_callback (some ⟨some false, some "quota exceeded"⟩)).actions :=
  c6_start_failure ⟨some false, some "quota exceeded"⟩ (by decide)

/-- C7: when the acknowledgment indicates success the callback only
updates the presenter to 5% with the started message — no reload, no
alert of any kind — while the record reload and the green success
alert are tied to a later progress event with `progress = 100`. -/
theorem c7_start_success (a : AckMessage) (h : a.success = some true) :
    (create_site_callback (some a)).actions
        = [Action.presenterUpdate 5 "Site creation process started..."]
    ∧ (create_site_callback (some a)).err = none
    ∧ Action.reloadDoc ∉ (create_site_callback (some a)).actions
    ∧ (∀ s i, Action.showAlert s i ∉ (create_site_callback (some a)).actions)
    ∧ (∀ ev : ProgressEvent, ev.progress = some 100 →
         Action.reloadDoc ∈ (on_site_creation_progress ev).actions
         ∧ Action.showAlert "Site created successfully!" "green"
             ∈ (on_site_creation_progress ev).actions) := by
  have hs : a.success.getD false = true := by rw [h]; rfl
  refine ⟨?_, ?_, ?_, ?_, ?_⟩
  · simp [create_site_callback, hs]
  · simp [create_site_callback, hs]
  · simp [create_site_callback, hs]
  · intro s i
    simp [create_site_callback, hs]
  · intro ev h100
    constructor <;> simp [on_site_creation_progress, h100]

/-- Witness for C7: acknowledgment `{success: true}` yields exactly
the 5% started presenter update. -/
theorem c7_witness :
    (create_site_callback (some ⟨some true, none⟩)).actions
        = [Action.presenterUpdate 5 "Site creation process started..."] :=
  (c7_start_success ⟨some true, none⟩ rfl).1

/-- C8: a run of N `update_progress` calls appends exactly the N
formatted `[timestamp] message` lines, in receipt order, to the
existing log; the previous log is a prefix of the new one (nothing is
removed or reordered), and repeated identical events map to repeated
identical lines. -/
theorem c8_log_is_receipt_trace (evs : List (Int × String × String))
    (s : Session) :
    (run_updates s evs).log = s.log ++ evs.map fmt_log_entry
    ∧ (run_updates s evs).log.length = s.log.length + evs.length
    ∧ s.log <+: (run_updates s evs).log := by
  refine ⟨run_updates_log evs s, ?_, ?_⟩
  · rw [run_updates_log]
    simp
  · rw [run_updates_log]
    exact List.prefix_append s.log (evs.map fmt_log_entry)

/-- C9: in the synchronous trace of `start_site_creation` the dialog
is shown first, the `site_creation_progress` listener is registered at
a position strictly before the `create_site` RPC call, and no RPC call
occurs at or before the registration position. -/
theorem c9_listener_registered_before_rpc (doc : CustomerSiteDoc) :
    (start_site_creation doc)[0]? = some Action.showDialog
    ∧ ∃ i j : ℕ, i < j
        ∧ (start_site_creation doc)[i]? = some Action.registerListener
        ∧ (start_site_creation doc)[j]?
            = some (Action.rpcCall create_site_method doc.name)
        ∧ ∀ k : ℕ, k ≤ i → ∀ mth arg,
            (start_site_creation doc)[k]? ≠ some (Action.rpcCall mth arg) := by
  refine ⟨rfl, 1, 2, by omega, rfl, rfl, ?_⟩
  intro k hk mth arg
  interval_cases k <;> simp [start_site_creation]

/-- C10: with a non-empty `customer_name` and an empty (or missing)
`custom_domain`, the handler writes the suggestion — lower-cased,
whitespace runs replaced by hyphens, characters outside
`[a-zA-Z0-9-]` removed, truncated to 20 characters — exactly when it
is non-empty, leaving `custom_domain` unchanged otherwise; a
non-empty `custom_domain` is never overwritten; and every suggestion
has length at most 20 and only allowed characters. -/
theorem c10_domain_suggestion (nm cd : String) (h : nm ≠ "") :
    customer_name (some nm) (some "") =
      (if suggested_domain nm = "" then some "" else some (suggested_domain nm))
    ∧ customer_name (some nm) none =
      (if suggested_domain nm = "" then none else some (suggested_domain nm))
    ∧ (cd ≠ "" → customer_name (some nm) (some cd) = some cd)
    ∧ (suggested_domain nm).length ≤ 20
    ∧ (∀ c ∈ (suggested_domain nm).toList, isDomainChar c = true) := by
  have hne := isEmpty_false_of_ne nm h
  have hee : ("" : String).isEmpty = true := rfl
  refine ⟨?_, ?_, ?_, ?_, ?_⟩
  · by_cases hs : suggested_domain nm = ""
    · simp [customer_name, truthy, hne, hs, hee]
    · have hse := isEmpty_false_of_ne _ hs
      simp [customer_name, truthy, hne, hs, hse, hee]
  · by_cases hs : suggested_domain nm = ""
    · simp [customer_name, truthy, hne, hs, hee]
    · have hse := isEmpty_false_of_ne _ hs
      simp [customer_name, truthy, hne, hs, hse, hee]
  · intro hcd
    have hcde := isEmpty_false_of_ne cd hcd
    simp [customer_name, truthy, hne, hcde]
  · have hlen : (suggested_domain nm).length =
        (((replace_ws_runs (nm.toList.map Char.toLower)).filter
            isDomainChar).take 20).length := rfl
    rw [hlen]
    exact List.length_take_le 20 _
  · intro c hc
    have hc2 : c ∈ (replace_ws_runs (nm.toList.map Char.toLower)).filter
        isDomainChar := List.take_subset 20 _ hc
    exact (List.mem_filter.mp hc2).2

/-- Witness for C10: the customer name `"Acme Corp 123!"` with empty
`custom_domain` yields the suggestion branch. -/
theorem c10_witness :
    customer_name (some "Acme Corp 123!") (some "") =
      (if suggested_domain "Acme Corp 123!" = "" then some ""
       else some (suggested_domain "Acme Corp 123!")) :=
  (c10_domain_suggestion "Acme Corp 123!" "existing" (by decide)).1

end SaasPM
